import Mathlib

/-!
Verification development for the sheets reconciliation engine
(`sheets_manager.py`): a shallow embedding of the retry executor,
the tag resolver, the existing-record index and the reconciliation
operation `write_profile`, together with theorems settling the
specified properties.

The remote worksheet is modelled as an explicit state (`SheetsState`);
remote writes performed through the executor are recorded as an ordered
trace of `WriteEvent`s.  Values coming from the external module
`core_scraper` (the canonical column schema `COLUMN_ORDER`, the
designated link columns `LINK_COLUMNS`, the cleaning function
`clean_data`) are parameters of the embedding, collected in `Config`.
-/

namespace DD

/-! ## Python-style dictionaries (insertion ordered, first-match lookup) -/

/-- Lookup in an association list, mirroring Python `d.get(k)`. -/
def dget {α : Type} : List (String × α) → String → Option α
  | [], _ => none
  | (k, v) :: t, key => if k == key then some v else dget t key

/-- Lookup with default, mirroring Python `d.get(k, dflt)`. -/
def dgetD {α : Type} (d : List (String × α)) (key : String) (dflt : α) : α :=
  (dget d key).getD dflt

/-- Assignment `d[k] = v`: replaces the value in place if the key is
present (keeping its position, as a Python dict does), otherwise appends
the new binding at the end. -/
def dset {α : Type} : List (String × α) → String → α → List (String × α)
  | [], key, v => [(key, v)]
  | (k, w) :: t, key, v =>
    if k == key then (k, v) :: t else (k, w) :: dset t key v

/-- Python truthiness of an optional string (`None` and `""` are falsy). -/
def pyTruthy : Option String → Bool
  | none => false
  | some s => !s.isEmpty

/-- Python `s or ""` on a string: the empty string is falsy. -/
def pyOrEmpty (s : String) : String :=
  if s == "" then "" else s

/-- Python `s.strip()`: drop whitespace from both ends.  (Defined by
structural recursion over the character list so that the kernel can
evaluate it; `String.trim` itself is not kernel-reducible.) -/
def pyStrip (s : String) : String :=
  ⟨(((s.data.dropWhile Char.isWhitespace).reverse.dropWhile
      Char.isWhitespace).reverse)⟩

/-- Python `s.lower()`: lower-case every character. -/
def pyLower (s : String) : String :=
  ⟨s.data.map Char.toLower⟩

/-! ## Substring tests (for the quota-error classifier) -/

/-- Whether `needle` is an initial segment of `haystack` (on char lists). -/
def listStartsWith : List Char → List Char → Bool
  | [], _ => true
  | _ :: _, [] => false
  | a :: as, b :: bs => a == b && listStartsWith as bs

/-- Whether `needle` occurs somewhere inside `haystack` (on char lists). -/
def listHasSub (needle : List Char) : List Char → Bool
  | [] => needle.isEmpty
  | b :: bs => listStartsWith needle (b :: bs) || listHasSub needle bs

/-- Python `needle in haystack` on strings. -/
def strContains (haystack needle : String) : Bool :=
  listHasSub needle.toList haystack.toList

/-! ## Retry/Backoff Executor (`SheetsManager.safe_update`)

One attempt of the wrapped remote operation either succeeds with a
result or raises with an error message. -/

inductive AttemptOutcome (α : Type) where
  | success (r : α)
  | failure (msg : String)
deriving Repr, DecidableEq

/-- The classifier used by `safe_update`:
`'429' in str(e) or 'quota' in str(e).lower()`. -/
def isQuotaError (msg : String) : Bool :=
  strContains msg "429" || strContains (pyLower msg) "quota"

/-- The retry loop of `safe_update`, indexed by the current attempt
number and by the remaining number of loop iterations (the fuel starts
at `max_retries`, so attempts are `0, 1, ..., max_retries - 1` exactly
as in `for attempt in range(max_retries)`).  Returns the result
(`none` models the Python `return None` failure path) together with the
list of backoff sleeps performed, each `(attempt + 1) * 5` seconds.
The fixed post-success `SHEET_WRITE_DELAY` sleep is not a backoff sleep
and is not recorded. -/
def safeUpdateGo {α : Type} (op : Nat → AttemptOutcome α) (maxRetries : Nat) :
    Nat → Nat → Option α × List Nat
  | _, 0 => (none, [])
  | attempt, fuel + 1 =>
    match op attempt with
    | .success r => (some r, [])
    | .failure msg =>
      if isQuotaError msg then
        let rest := safeUpdateGo op maxRetries (attempt + 1) fuel
        (rest.1, (attempt + 1) * 5 :: rest.2)
      else
        if attempt + 1 == maxRetries then (none, [])
        else safeUpdateGo op maxRetries (attempt + 1) fuel

/-- `SheetsManager.safe_update(func, *args, max_retries=3)`:
run the operation, retrying on failure as the loop does, never raising. -/
def safe_update {α : Type} (op : Nat → AttemptOutcome α) (maxRetries : Nat) :
    Option α × List Nat :=
  safeUpdateGo op maxRetries 0 maxRetries

/-! ## Tag Resolver (`load_tags_mapping` / `get_tags_for_nickname`) -/

/-- One non-empty cell appends `", <tag>"` to an existing entry for the
identity, or starts the entry with the bare tag. -/
def addTag (m : List (String × String)) (key tag : String) :
    List (String × String) :=
  match dget m key with
  | some v => dset m key (v ++ ", " ++ tag)
  | none => dset m key tag

/-- The inner loop of `load_tags_mapping`: walk the body rows of one tag
column (`for row_idx in range(1, len(all_data))`), guarding each access
by `col_idx < len(row)` and skipping blank cells. -/
def processColumn (colIdx : Nat) (tagClean : String) :
    List (List String) → List (String × String) → List (String × String)
  | [], m => m
  | row :: rest, m =>
    let m' :=
      if colIdx < row.length then
        if pyStrip (row.getD colIdx "") == "" then m
        else addTag m (pyLower (pyStrip (row.getD colIdx ""))) tagClean
      else m
    processColumn colIdx tagClean rest m'

/-- The outer loop of `load_tags_mapping`: walk the enumerated header
cells (`for col_idx, tag_name in enumerate(headers)`), skipping blank
tag names. -/
def loadTagsAux (rows : List (List String)) :
    List (Nat × String) → List (String × String) → List (String × String)
  | [], m => m
  | (ci, tag) :: rest, m =>
    let m' :=
      if pyStrip tag == "" then m else processColumn ci (pyStrip tag) rows m
    loadTagsAux rows rest m'

/-- `SheetsManager.load_tags_mapping`.  `none` models a missing Tags
worksheet (in which case the mapping is never built); a table with
fewer than 2 rows also yields the empty mapping
(`if not all_data or len(all_data) < 2: return`). -/
def load_tags_mapping : Option (List (List String)) → List (String × String)
  | none => []
  | some [] => []
  | some (headers :: rows) =>
    if (headers :: rows).length < 2 then []
    else loadTagsAux rows headers.enum []

/-- `SheetsManager.get_tags_for_nickname`:
`self.tags_mapping.get(nickname.lower(), "")`. -/
def get_tags_for_nickname (tagsMapping : List (String × String))
    (nickname : String) : String :=
  dgetD tagsMapping (pyLower nickname) ""

/-! ## Observers for the tag resolver

Spec-side description of the mapping the build loop produces: for each
non-blank tag column (left to right) and each body row holding a
non-empty cell whose trimmed, lower-cased text equals the identity, one
occurrence of the trimmed tag is collected; the rendered tag string is
the comma-joined occurrence list. -/

/-- Whether one body row contributes the tag of column `colIdx` for
identity `ident`. -/
def rowMatch (colIdx : Nat) (ident : String) (row : List String) : Bool :=
  decide (colIdx < row.length) && !(pyStrip (row.getD colIdx "") == "")
    && (pyLower (pyStrip (row.getD colIdx "")) == ident)

/-- How many body rows contribute the tag of column `colIdx` for
identity `ident`. -/
def matchCount (colIdx : Nat) (ident : String) : List (List String) → Nat
  | [] => 0
  | row :: rest =>
    (if rowMatch colIdx ident row then 1 else 0) + matchCount colIdx ident rest

/-- The comma-joining accumulator: `none` means no entry yet, and each
further tag is attached with `", "`. -/
def joinAcc : Option String → List String → Option String
  | o, [] => o
  | o, t :: ts =>
    joinAcc (some (match o with | none => t | some v => v ++ ", " ++ t)) ts

/-- Comma-joined rendering of a list of tags. -/
def joinComma : List String → String
  | [] => ""
  | t :: ts => ts.foldl (fun a b => a ++ ", " ++ b) t

/-- All tag occurrences for an identity, grouped by column, columns
left to right. -/
def occTags (headers : List String) (rows : List (List String))
    (ident : String) : List String :=
  headers.enum.flatMap (fun p =>
    if pyStrip p.2 == "" then []
    else List.replicate (matchCount p.1 ident rows) (pyStrip p.2))

/-! ## Data model of the reconciliation engine -/

/-- Values imported from `core_scraper`, parameters of the embedding:
the canonical column schema `COLUMN_ORDER`, the designated link-bearing
columns `LINK_COLUMNS`, and the cell-cleaning function `clean_data`. -/
structure Config where
  cleanData : String → String
  columnOrder : List String
  linkColumns : List String

/-- One entry of the Existing-Record Index:
`{'row': <1-based position>, 'data': <raw row cells>}`. -/
structure RowSnap where
  row : Nat
  data : List String
deriving Repr, DecidableEq

/-- One appended row of the Log worksheet
(`[timestamp, nickname, change_type, fields_text, before, after]`;
the wall-clock timestamp is external and not modelled, and the two
JSON-serialised snapshots are kept structured instead of serialised). -/
structure LogEntry where
  nickname : String
  changeType : String
  fieldsText : String
  before : List (String × String)
  after : List (String × String)
deriving Repr, DecidableEq

/-- A remote write performed (successfully) through the executor. -/
inductive WriteEvent where
  | profilesAppend (row : List String)
  | cellUpdate (rowIdx colIdx : Nat) (value : String)
  | logAppend (entry : LogEntry)
deriving Repr, DecidableEq

/-- The state touched by `write_profile`: the Profiles worksheet
(all rows, header included, as `get_all_values` returns them), the
in-process Existing-Record Index `existing_profiles`, the tag mapping
`tags_mapping`, and the Log worksheet (`log_sheet` may be absent). -/
structure SheetsState where
  profiles : List (List String)
  existing : List (String × RowSnap)
  tags : List (String × String)
  logPresent : Bool
  logRows : List LogEntry
deriving Repr, DecidableEq

/-- The dictionary returned by `write_profile` (the `error` key is only
present on the missing-nickname path). -/
structure WPResult where
  status : String
  error : Option String
  changed_fields : List String
deriving Repr, DecidableEq

/-- Full outcome of one `write_profile` call: the returned result, the
final state, the (possibly mutated) record dictionary, and the ordered
trace of remote writes performed. -/
structure WPOut where
  result : WPResult
  st : SheetsState
  data : List (String × String)
  writes : List WriteEvent
deriving Repr, DecidableEq

/-! ## Row projection and change detection -/

/-- One cell of the projected row (`row_values`) for a column name:
`IMAGE` is left empty for the later formula, `PROFILE LINK` and
`LAST POST` become the fixed literals `"Profile"` / `"Post"` when the
record holds a truthy value, every other column is
`clean_data(data.get(col, ""))`. -/
def projectCell (cfg : Config) (d : List (String × String)) (col : String) :
    String :=
  if col == "IMAGE" then ""
  else if col == "PROFILE LINK" then
    (if pyTruthy (dget d col) then "Profile" else "")
  else if col == "LAST POST" then
    (if pyTruthy (dget d col) then "Post" else "")
  else cfg.cleanData (dgetD d col "")

/-- The projected row `row_values`, one cell per canonical column. -/
def projectRow (cfg : Config) (d : List (String × String)) : List String :=
  cfg.columnOrder.map (projectCell cfg d)

/-- The `before_snapshot` dictionary:
`{COLUMN_ORDER[idx]: existing['data'][idx] if idx < len(...) else ""}`. -/
def buildBeforeSnap (cols : List String) (snapData : List String) :
    List (String × String) :=
  (List.range cols.length).foldl
    (fun m idx => dset m (cols.getD idx "") (snapData.getD idx "")) []

/-- The `changed_indices` loop: an index is changed when
`(before_snapshot.get(col, "") or "") != (row_values[idx] or "")`. -/
def changedIndices (cols : List String) (beforeSnap : List (String × String))
    (rowValues : List String) : List Nat :=
  (List.range cols.length).filter (fun idx =>
    pyOrEmpty (dgetD beforeSnap (cols.getD idx "") "")
      != pyOrEmpty (rowValues.getD idx ""))

/-- The `after` dictionary passed to `log_change`:
`{col: data.get(col, "") for col in COLUMN_ORDER}`. -/
def afterDict (cols : List String) (d : List (String × String)) :
    List (String × String) :=
  cols.foldl (fun m col => dset m col (dgetD d col "")) []

/-! ## Link formulas (`apply_link_formulas`) -/

/-- The formula string written into a link-bearing cell. -/
def linkFormula (colName value : String) : String :=
  if colName == "IMAGE" then "=IMAGE(\"" ++ value ++ "\", 4, 50, 50)"
  else if colName == "LAST POST" then
    "=HYPERLINK(\"" ++ value ++ "\", \"Post\")"
  else "=HYPERLINK(\"" ++ value ++ "\", \"Profile\")"

/-- Overwrite one worksheet cell; `rowIdx` is the 1-based sheet row,
`colIdx` the 0-based column. -/
def setCell (table : List (List String)) (rowIdx colIdx : Nat) (v : String) :
    List (List String) :=
  table.set (rowIdx - 1) ((table.getD (rowIdx - 1) []).set colIdx v)

/-- `SheetsManager.apply_link_formulas`: for every designated link
column holding a truthy value, write the formula into that cell of
row `rowIdx`.  Modelled from the spec: `COLUMN_TO_INDEX`, imported from
`core_scraper` and missing from the repository, maps a column name to
its 0-based position in the canonical column order. -/
def applyLinkAux (cfg : Config) (rowIdx : Nat) (d : List (String × String)) :
    List String → List (List String) → List (List String) × List WriteEvent
  | [], table => (table, [])
  | colName :: rest, table =>
    if pyTruthy (dget d colName) then
      let v := dgetD d colName ""
      let colIdx := cfg.columnOrder.indexOf colName
      let formula := linkFormula colName v
      let out := applyLinkAux cfg rowIdx d rest (setCell table rowIdx colIdx formula)
      (out.1, WriteEvent.cellUpdate rowIdx colIdx formula :: out.2)
    else applyLinkAux cfg rowIdx d rest table

/-- `apply_link_formulas(row_idx, data)` over all link columns. -/
def apply_link_formulas (cfg : Config) (rowIdx : Nat)
    (d : List (String × String)) (table : List (List String)) :
    List (List String) × List WriteEvent :=
  applyLinkAux cfg rowIdx d cfg.linkColumns table

/-! ## Audit logging (`log_change`) -/

/-- `SheetsManager.log_change`: append one row to the Log worksheet
(no-op when the worksheet is absent).  The fields text is
`", ".join(changed_fields) if changed_fields else "-"` and a missing
before-snapshot becomes the empty dictionary (`before or {}`). -/
def log_change (st : SheetsState) (nickname changeType : String)
    (changedFields : List String)
    (before : Option (List (String × String)))
    (after : List (String × String)) : SheetsState × List WriteEvent :=
  if st.logPresent then
    let entry : LogEntry :=
      { nickname := nickname
        changeType := changeType
        fieldsText :=
          if changedFields.isEmpty then "-"
          else String.intercalate ", " changedFields
        before := before.getD []
        after := after }
    ({ st with logRows := st.logRows ++ [entry] }, [WriteEvent.logAppend entry])
  else (st, [])

/-! ## The reconciliation operation (`write_profile`) -/

/-- `SheetsManager.write_profile(data)`.

`appendOk` tells whether the one `safe_update(profiles_sheet.append_row,
row_values)` call of this invocation ultimately succeeds (`false` models
the executor exhausting its attempts and returning `None`); the source
ignores that return value, which this embedding reproduces.  The other
remote writes of the call (link-formula cells, the log append) are taken
to succeed. -/
def write_profile (cfg : Config) (st : SheetsState)
    (data0 : List (String × String)) (appendOk : Bool) : WPOut :=
  let nickname := pyStrip (dgetD data0 "NICK NAME" "")
  if nickname == "" then
    { result := { status := "error", error := some "Missing nickname",
                  changed_fields := [] }
      st := st, data := data0, writes := [] }
  else
    let data := dset data0 "TAGS" (get_tags_for_nickname st.tags nickname)
    let rowValues := projectRow cfg data
    let nicknameLower := pyLower nickname
    match dget st.existing nicknameLower with
    | some existing =>
      let beforeSnapshot := buildBeforeSnap cfg.columnOrder existing.data
      let changed := changedIndices cfg.columnOrder beforeSnapshot rowValues
      if changed.isEmpty then
        let lc := log_change st nickname "UNCHANGED" [] (some beforeSnapshot)
          (afterDict cfg.columnOrder data)
        { result := { status := "unchanged", error := none,
                      changed_fields := [] }
          st := lc.1, data := data, writes := lc.2 }
      else
        let profiles1 := if appendOk then st.profiles ++ [rowValues] else st.profiles
        let appendEvs :=
          if appendOk then [WriteEvent.profilesAppend rowValues] else []
        let newRow := profiles1.length
        let alf := apply_link_formulas cfg newRow data profiles1
        let changedFields :=
          changed.map (fun idx => cfg.columnOrder.getD idx "")
        let lc := log_change { st with profiles := alf.1 } nickname "UPDATED"
          changedFields (some beforeSnapshot) (afterDict cfg.columnOrder data)
        { result := { status := "updated", error := none,
                      changed_fields := changedFields }
          st := { lc.1 with
                  existing := dset lc.1.existing nicknameLower
                    { row := newRow, data := rowValues } }
          data := data
          writes := appendEvs ++ alf.2 ++ lc.2 }
    | none =>
      let profiles1 := if appendOk then st.profiles ++ [rowValues] else st.profiles
      let appendEvs :=
        if appendOk then [WriteEvent.profilesAppend rowValues] else []
      let newRow := profiles1.length
      let alf := apply_link_formulas cfg newRow data profiles1
      let changedFields := cfg.columnOrder
      let lc := log_change
        { st with profiles := alf.1,
                  existing := dset st.existing nicknameLower
                    { row := newRow, data := rowValues } }
        nickname "NEW" changedFields none (afterDict cfg.columnOrder data)
      { result := { status := "new", error := none,
                    changed_fields := changedFields }
        st := lc.1, data := data, writes := appendEvs ++ alf.2 ++ lc.2 }

/-! ## Observers used to state the claims -/

/-- The identity of a record: its `NICK NAME` field, trimmed. -/
def wpNickname (data : List (String × String)) : String :=
  pyStrip (dgetD data "NICK NAME" "")

/-- The record after the `data['TAGS'] = ...` assignment. -/
def wpData (st : SheetsState) (data : List (String × String)) :
    List (String × String) :=
  dset data "TAGS" (get_tags_for_nickname st.tags (wpNickname data))

/-- The projected row of a record against a state. -/
def wpRow (cfg : Config) (st : SheetsState) (data : List (String × String)) :
    List String :=
  projectRow cfg (wpData st data)

/-- The set `S` of changed column indices: the positions at which the
stored snapshot and the projected row differ, absent or empty cells
compared as the empty string; kept in canonical column order. -/
def wpDiff (cfg : Config) (snapData rowValues : List String) : List Nat :=
  (List.range cfg.columnOrder.length).filter (fun idx =>
    (snapData.getD idx "") != (rowValues.getD idx ""))

/-! ## Concrete fixtures (used by witnesses and counterexamples)

A small instantiation of the external parameters: identity cleaning,
a six-column schema containing the specially treated columns, and the
three link-bearing columns. -/

def cfgW : Config where
  cleanData := id
  columnOrder := ["PIC", "NICK NAME", "TAGS", "IMAGE", "PROFILE LINK", "LAST POST"]
  linkColumns := ["IMAGE", "PROFILE LINK", "LAST POST"]

/-- A stored row for the identity `bob`. -/
def rowBob : List String := ["x", "bob", "", "", "", ""]

/-- A stored row for `bob` whose profile-link cell already holds the
projected literal. -/
def rowBobLink : List String := ["x", "bob", "", "", "Profile", ""]

/-- A state whose index already knows `bob` (snapshot `rowBob`). -/
def stW : SheetsState where
  profiles := [cfgW.columnOrder, rowBob]
  existing := [("bob", { row := 2, data := rowBob })]
  tags := []
  logPresent := true
  logRows := []

/-- A state whose index already knows `bob` with snapshot `rowBobLink`. -/
def stWLink : SheetsState where
  profiles := [cfgW.columnOrder, rowBobLink]
  existing := [("bob", { row := 2, data := rowBobLink })]
  tags := []
  logPresent := true
  logRows := []

/-- A state with only the header row and an empty index. -/
def stEmptyW : SheetsState where
  profiles := [cfgW.columnOrder]
  existing := []
  tags := []
  logPresent := true
  logRows := []

/-! ## Dictionary lemmas -/

theorem dget_dset_self {α : Type} (m : List (String × α)) (k : String) (v : α) :
    dget (dset m k v) k = some v := by
  induction m with
  | nil => simp [dset, dget]
  | cons hd t ih =>
    obtain ⟨k₁, w⟩ := hd
    by_cases h : (k₁ == k) = true
    · simp [dset, h, dget]
    · simp [dset, h, dget, ih]

theorem dget_dset_ne {α : Type} (m : List (String × α)) (k₂ k : String) (v : α)
    (hne : k₂ ≠ k) : dget (dset m k v) k₂ = dget m k₂ := by
  have hb : (k == k₂) = false := beq_eq_false_iff_ne.mpr (Ne.symm hne)
  induction m with
  | nil => simp [dset, dget, hb]
  | cons hd t ih =>
    obtain ⟨k₁, w⟩ := hd
    by_cases h : (k₁ == k) = true
    · have h1 : k₁ = k := eq_of_beq h
      have h2 : (k₁ == k₂) = false := by
        subst h1; exact hb
      simp [dset, h, dget, h2]
    · by_cases h2 : (k₁ == k₂) = true
      · simp [dset, h, dget, h2]
      · simp [dset, h, dget, h2, ih]

theorem pyOrEmpty_eq (s : String) : pyOrEmpty s = s := by
  unfold pyOrEmpty; split <;> simp_all

/-! ## Small list lemmas -/

theorem getD_append_len {α : Type} (l : List α) (a d : α) :
    (l ++ [a]).getD l.length d = a := by
  induction l with
  | nil => rfl
  | cons x t ih => simp

theorem set_append_len {α : Type} (l : List α) (a b : α) :
    (l ++ [a]).set l.length b = l ++ [b] := by
  induction l with
  | nil => rfl
  | cons x t ih => simp

theorem setCell_append_last (l : List (List String)) (r : List String)
    (c : Nat) (v : String) :
    setCell (l ++ [r]) (l.length + 1) c v = l ++ [r.set c v] := by
  unfold setCell
  simp [getD_append_len, set_append_len]

/-! ## The formula pass only touches the freshly appended row -/

theorem applyLinkAux_last (cfg : Config) (d : List (String × String))
    (l : List (List String)) :
    ∀ (linkCols : List String) (r : List String),
      ∃ r₂, (applyLinkAux cfg (l.length + 1) d linkCols (l ++ [r])).1 = l ++ [r₂] := by
  intro linkCols
  induction linkCols with
  | nil => intro r; exact ⟨r, rfl⟩
  | cons c rest ih =>
    intro r
    unfold applyLinkAux
    by_cases h : pyTruthy (dget d c) = true
    · simpa [h, setCell_append_last] using
        ih (r.set (cfg.columnOrder.indexOf c)
          (linkFormula c (dgetD d c "")))
    · simpa [h] using ih r

/-! ## `log_change` frame lemmas -/

theorem log_change_profiles (st : SheetsState) (n t : String)
    (f : List String) (b : Option (List (String × String)))
    (a : List (String × String)) :
    (log_change st n t f b a).1.profiles = st.profiles := by
  unfold log_change; split <;> rfl

theorem log_change_existing (st : SheetsState) (n t : String)
    (f : List String) (b : Option (List (String × String)))
    (a : List (String × String)) :
    (log_change st n t f b a).1.existing = st.existing := by
  unfold log_change; split <;> rfl

theorem log_change_tags (st : SheetsState) (n t : String)
    (f : List String) (b : Option (List (String × String)))
    (a : List (String × String)) :
    (log_change st n t f b a).1.tags = st.tags := by
  unfold log_change; split <;> rfl

theorem log_change_logPresent (st : SheetsState) (n t : String)
    (f : List String) (b : Option (List (String × String)))
    (a : List (String × String)) :
    (log_change st n t f b a).1.logPresent = st.logPresent := by
  unfold log_change; split <;> rfl

theorem log_change_writes (st : SheetsState) (n t : String)
    (f : List String) (b : Option (List (String × String)))
    (a : List (String × String)) :
    ∀ e ∈ (log_change st n t f b a).2, ∃ entry, e = WriteEvent.logAppend entry := by
  unfold log_change; split <;> simp

/-! ## Change detection against the snapshot dictionary -/

theorem dget_snapFold (cols snap : List String)
    (inj : ∀ i j, i < cols.length → j < cols.length →
      cols.getD i "" = cols.getD j "" → i = j) :
    ∀ (n : Nat), n ≤ cols.length →
      ∀ (m : List (String × String)) (i : Nat), i < n →
        dget ((List.range n).foldl
            (fun m idx => dset m (cols.getD idx "") (snap.getD idx "")) m)
          (cols.getD i "") = some (snap.getD i "") := by
  intro n
  induction n with
  | zero => intro _ _ i hi; exact absurd hi (Nat.not_lt_zero i)
  | succ n ih =>
    intro hn m i hi
    rw [List.range_succ, List.foldl_append, List.foldl_cons, List.foldl_nil]
    rcases Nat.lt_succ_iff_lt_or_eq.mp hi with h | h
    · have hne : cols.getD i "" ≠ cols.getD n "" := by
        intro he
        exact absurd (inj i n (Nat.lt_of_lt_of_le hi hn)
          (Nat.lt_of_lt_of_le (Nat.lt_succ_self n) hn) he) (Nat.ne_of_lt h)
      rw [dget_dset_ne _ _ _ _ hne]
      exact ih (Nat.le_of_succ_le hn) m i h
    · subst h; exact dget_dset_self _ _ _

theorem nodup_getD_inj (cols : List String) (hnd : cols.Nodup) :
    ∀ i j, i < cols.length → j < cols.length →
      cols.getD i "" = cols.getD j "" → i = j := by
  intro i j hi hj he
  rw [List.getD_eq_getElem cols "" hi, List.getD_eq_getElem cols "" hj] at he
  exact (hnd.getElem_inj_iff).mp he

theorem dget_buildBeforeSnap (cols snap : List String) (hnd : cols.Nodup)
    (i : Nat) (hi : i < cols.length) :
    dget (buildBeforeSnap cols snap) (cols.getD i "") = some (snap.getD i "") :=
  dget_snapFold cols snap (nodup_getD_inj cols hnd) cols.length
    (Nat.le_refl _) [] i hi

/-- Under a duplicate-free column schema, the `changed_indices` loop of
the source computes exactly the positions where the stored snapshot and
the projected row differ. -/
theorem changedIndices_eq_wpDiff (cfg : Config) (snapData rv : List String)
    (hnd : cfg.columnOrder.Nodup) :
    changedIndices cfg.columnOrder (buildBeforeSnap cfg.columnOrder snapData) rv
      = wpDiff cfg snapData rv := by
  unfold changedIndices wpDiff
  apply List.filter_congr
  intro i hi
  have hi' : i < cfg.columnOrder.length := List.mem_range.mp hi
  rw [pyOrEmpty_eq, pyOrEmpty_eq, dgetD,
    dget_buildBeforeSnap cfg.columnOrder snapData hnd i hi']
  rfl

/-! ## Branch analysis of `write_profile` -/

theorem write_profile_error_eq (cfg : Config) (st : SheetsState)
    (data0 : List (String × String)) (appendOk : Bool)
    (h : wpNickname data0 = "") :
    write_profile cfg st data0 appendOk =
      { result := { status := "error", error := some "Missing nickname",
                    changed_fields := [] }
        st := st, data := data0, writes := [] } := by
  unfold write_profile
  have h1 : (pyStrip (dgetD data0 "NICK NAME" "") == "") = true := by
    simpa [wpNickname] using h
  simp [h1]

theorem write_profile_new_eq (cfg : Config) (st : SheetsState)
    (data0 : List (String × String)) (appendOk : Bool)
    (hnick : wpNickname data0 ≠ "")
    (hex : dget st.existing (pyLower (wpNickname data0)) = none) :
    write_profile cfg st data0 appendOk =
      (let rv := wpRow cfg st data0
       let profiles1 := if appendOk then st.profiles ++ [rv] else st.profiles
       let newRow := profiles1.length
       let alf := apply_link_formulas cfg newRow (wpData st data0) profiles1
       let lc := log_change
          { st with profiles := alf.1,
                    existing := dset st.existing (pyLower (wpNickname data0))
                      { row := newRow, data := rv } }
          (wpNickname data0) "NEW" cfg.columnOrder none
          (afterDict cfg.columnOrder (wpData st data0))
       { result := { status := "new", error := none,
                     changed_fields := cfg.columnOrder }
         st := lc.1, data := wpData st data0,
         writes := (if appendOk then [WriteEvent.profilesAppend rv] else [])
           ++ alf.2 ++ lc.2 }) := by
  unfold write_profile
  have h1 : (pyStrip (dgetD data0 "NICK NAME" "") == "") = false := by
    simp only [wpNickname] at hnick
    exact beq_eq_false_iff_ne.mpr hnick
  simp only [wpNickname] at hex
  simp [h1, hex, wpRow, wpData, wpNickname]

theorem write_profile_unchanged_eq (cfg : Config) (st : SheetsState)
    (data0 : List (String × String)) (appendOk : Bool) (snap : RowSnap)
    (hnick : wpNickname data0 ≠ "")
    (hex : dget st.existing (pyLower (wpNickname data0)) = some snap)
    (hch : changedIndices cfg.columnOrder
        (buildBeforeSnap cfg.columnOrder snap.data) (wpRow cfg st data0) = []) :
    write_profile cfg st data0 appendOk =
      (let lc := log_change st (wpNickname data0) "UNCHANGED" []
          (some (buildBeforeSnap cfg.columnOrder snap.data))
          (afterDict cfg.columnOrder (wpData st data0))
       { result := { status := "unchanged", error := none,
                     changed_fields := [] }
         st := lc.1, data := wpData st data0, writes := lc.2 }) := by
  unfold write_profile
  have h1 : (pyStrip (dgetD data0 "NICK NAME" "") == "") = false := by
    simp only [wpNickname] at hnick
    exact beq_eq_false_iff_ne.mpr hnick
  simp only [wpNickname] at hex
  simp only [wpRow, wpData, wpNickname] at hch
  simp [h1, hex, hch, wpData, wpNickname]

theorem write_profile_updated_eq (cfg : Config) (st : SheetsState)
    (data0 : List (String × String)) (appendOk : Bool) (snap : RowSnap)
    (hnick : wpNickname data0 ≠ "")
    (hex : dget st.existing (pyLower (wpNickname data0)) = some snap)
    (hch : changedIndices cfg.columnOrder
        (buildBeforeSnap cfg.columnOrder snap.data) (wpRow cfg st data0) ≠ []) :
    write_profile cfg st data0 appendOk =
      (let rv := wpRow cfg st data0
       let changed := changedIndices cfg.columnOrder
          (buildBeforeSnap cfg.columnOrder snap.data) rv
       let profiles1 := if appendOk then st.profiles ++ [rv] else st.profiles
       let newRow := profiles1.length
       let alf := apply_link_formulas cfg newRow (wpData st data0) profiles1
       let changedFields := changed.map (fun idx => cfg.columnOrder.getD idx "")
       let lc := log_change { st with profiles := alf.1 } (wpNickname data0)
          "UPDATED" changedFields (some (buildBeforeSnap cfg.columnOrder snap.data))
          (afterDict cfg.columnOrder (wpData st data0))
       { result := { status := "updated", error := none,
                     changed_fields := changedFields }
         st := { lc.1 with
                 existing := dset lc.1.existing (pyLower (wpNickname data0))
                   { row := newRow, data := rv } }
         data := wpData st data0
         writes := (if appendOk then [WriteEvent.profilesAppend rv] else [])
           ++ alf.2 ++ lc.2 }) := by
  unfold write_profile
  have h1 : (pyStrip (dgetD data0 "NICK NAME" "") == "") = false := by
    simp only [wpNickname] at hnick
    exact beq_eq_false_iff_ne.mpr hnick
  simp only [wpNickname] at hex
  simp only [wpRow, wpData, wpNickname] at hch
  have hch2 : (changedIndices cfg.columnOrder
      (buildBeforeSnap cfg.columnOrder snap.data)
      (projectRow cfg (dset data0 "TAGS"
        (get_tags_for_nickname st.tags
          (pyStrip (dgetD data0 "NICK NAME" "")))))).isEmpty = false := by
    rw [List.isEmpty_eq_false]
    exact hch
  simp [h1, hex, hch2, wpRow, wpData, wpNickname]

/-- Projection only looks at the literal values of ordinary columns and
at the truthiness of the two hyperlink columns; the `IMAGE` cell is
always projected to the empty literal. -/
theorem projectCell_congr (cfg : Config) (d₁ d₂ : List (String × String))
    (hother : ∀ c, c ≠ "IMAGE" → c ≠ "PROFILE LINK" → c ≠ "LAST POST" →
      dget d₁ c = dget d₂ c)
    (hpl : pyTruthy (dget d₁ "PROFILE LINK") = pyTruthy (dget d₂ "PROFILE LINK"))
    (hlp : pyTruthy (dget d₁ "LAST POST") = pyTruthy (dget d₂ "LAST POST"))
    (c : String) : projectCell cfg d₁ c = projectCell cfg d₂ c := by
  unfold projectCell
  by_cases h1 : (c == "IMAGE") = true
  · simp [h1]
  · by_cases h2 : (c == "PROFILE LINK") = true
    · have hc := eq_of_beq h2
      subst hc
      simp [h1, h2, hpl]
    · by_cases h3 : (c == "LAST POST") = true
      · have hc := eq_of_beq h3
        subst hc
        simp [h1, h2, h3, hlp]
      · have e1 : c ≠ "IMAGE" := fun he => h1 (by simp [he])
        have e2 : c ≠ "PROFILE LINK" := fun he => h2 (by simp [he])
        have e3 : c ≠ "LAST POST" := fun he => h3 (by simp [he])
        simp [h1, h2, h3, dgetD, hother c e1 e2 e3]

/-! ## Claims -/

/-- C7: a record whose nickname is empty after trimming is rejected
before any write: the call returns the error result, appends nothing,
writes no log row, performs no remote write at all, leaves the
Existing-Record Index (indeed the whole state) unchanged, and does not
mutate the record. -/
theorem c7_missing_nickname_rejected (cfg : Config) (st : SheetsState)
    (data : List (String × String)) (appendOk : Bool)
    (h : wpNickname data = "") :
    (write_profile cfg st data appendOk).result.status = "error"
    ∧ (write_profile cfg st data appendOk).result.error = some "Missing nickname"
    ∧ (write_profile cfg st data appendOk).result.changed_fields = []
    ∧ (write_profile cfg st data appendOk).st = st
    ∧ (write_profile cfg st data appendOk).data = data
    ∧ (write_profile cfg st data appendOk).writes = [] := by
  rw [write_profile_error_eq cfg st data appendOk h]
  exact ⟨rfl, rfl, rfl, rfl, rfl, rfl⟩

/-- Witness for C7 at a whitespace-only nickname. -/
theorem c7_missing_nickname_rejected_witness :
    wpNickname [("NICK NAME", "  ")] = ""
    ∧ ((write_profile cfgW stW [("NICK NAME", "  ")] true).result.status = "error"
      ∧ (write_profile cfgW stW [("NICK NAME", "  ")] true).result.error
          = some "Missing nickname"
      ∧ (write_profile cfgW stW [("NICK NAME", "  ")] true).result.changed_fields = []
      ∧ (write_profile cfgW stW [("NICK NAME", "  ")] true).st = stW
      ∧ (write_profile cfgW stW [("NICK NAME", "  ")] true).data = [("NICK NAME", "  ")]
      ∧ (write_profile cfgW stW [("NICK NAME", "  ")] true).writes = []) :=
  ⟨by decide, c7_missing_nickname_rejected cfgW stW [("NICK NAME", "  ")] true (by decide)⟩

/-- C2: a record whose lower-cased identity is absent from the index is
appended at the end of the Profiles table, an index entry for the
identity pointing at the new row position with the projected values is
added, and the call returns status "new" with the full canonical column
schema as changed fields. -/
theorem c2_new_appends_and_indexes (cfg : Config) (st : SheetsState)
    (data : List (String × String))
    (hnick : wpNickname data ≠ "")
    (hex : dget st.existing (pyLower (wpNickname data)) = none) :
    (write_profile cfg st data true).result.status = "new"
    ∧ (write_profile cfg st data true).result.changed_fields = cfg.columnOrder
    ∧ (∃ r, (write_profile cfg st data true).st.profiles = st.profiles ++ [r])
    ∧ (write_profile cfg st data true).st.existing
        = dset st.existing (pyLower (wpNickname data))
            { row := st.profiles.length + 1, data := wpRow cfg st data } := by
  rw [write_profile_new_eq cfg st data true hnick hex]
  refine ⟨rfl, rfl, ?_, ?_⟩
  · simp only [log_change_profiles, apply_link_formulas, if_true,
      List.length_append, List.length_cons, List.length_nil, Nat.zero_add]
    exact applyLinkAux_last cfg (wpData st data) st.profiles
      cfg.linkColumns (wpRow cfg st data)
  · simp only [log_change_existing, if_true, List.length_append,
      List.length_cons, List.length_nil, Nat.zero_add]

/-- Witness for C2 at a previously unseen identity. -/
theorem c2_new_appends_and_indexes_witness :
    dget stEmptyW.existing (pyLower (wpNickname [("NICK NAME", "alice")])) = none
    ∧ ((write_profile cfgW stEmptyW [("NICK NAME", "alice")] true).result.status = "new"
      ∧ (write_profile cfgW stEmptyW [("NICK NAME", "alice")] true).result.changed_fields
          = cfgW.columnOrder
      ∧ (∃ r, (write_profile cfgW stEmptyW [("NICK NAME", "alice")] true).st.profiles
          = stEmptyW.profiles ++ [r])
      ∧ (write_profile cfgW stEmptyW [("NICK NAME", "alice")] true).st.existing
          = dset stEmptyW.existing (pyLower (wpNickname [("NICK NAME", "alice")]))
              { row := stEmptyW.profiles.length + 1,
                data := wpRow cfgW stEmptyW [("NICK NAME", "alice")] }) :=
  ⟨by decide, c2_new_appends_and_indexes cfgW stEmptyW [("NICK NAME", "alice")]
    (by decide) (by decide)⟩

/-- C1: a record whose lower-cased identity is present in the index and
whose projected row differs from the stored snapshot in a nonempty set
`S` of columns is appended at the end of the Profiles table (every old
row, in particular the old row for this identity, is left in place),
the index entry for the identity is redirected to the new row position
with the projected values, and the call returns status "updated" with
changed fields exactly the column names of `S` in canonical column
order. -/
theorem c1_updated_appends_and_reindexes (cfg : Config) (st : SheetsState)
    (data : List (String × String)) (snap : RowSnap)
    (hnd : cfg.columnOrder.Nodup)
    (hnick : wpNickname data ≠ "")
    (hex : dget st.existing (pyLower (wpNickname data)) = some snap)
    (hdiff : wpDiff cfg snap.data (wpRow cfg st data) ≠ []) :
    (write_profile cfg st data true).result.status = "updated"
    ∧ (write_profile cfg st data true).result.changed_fields
        = (wpDiff cfg snap.data (wpRow cfg st data)).map
            (fun idx => cfg.columnOrder.getD idx "")
    ∧ (∃ r, (write_profile cfg st data true).st.profiles = st.profiles ++ [r])
    ∧ (write_profile cfg st data true).st.existing
        = dset st.existing (pyLower (wpNickname data))
            { row := st.profiles.length + 1, data := wpRow cfg st data } := by
  have hch0 : changedIndices cfg.columnOrder
      (buildBeforeSnap cfg.columnOrder snap.data) (wpRow cfg st data) ≠ [] := by
    rw [changedIndices_eq_wpDiff cfg snap.data (wpRow cfg st data) hnd]
    exact hdiff
  rw [write_profile_updated_eq cfg st data true snap hnick hex hch0]
  refine ⟨rfl, ?_, ?_, ?_⟩
  · simp only [changedIndices_eq_wpDiff cfg snap.data (wpRow cfg st data) hnd]
  · simp only [log_change_profiles, apply_link_formulas, if_true,
      List.length_append, List.length_cons, List.length_nil, Nat.zero_add]
    exact applyLinkAux_last cfg (wpData st data) st.profiles
      cfg.linkColumns (wpRow cfg st data)
  · simp only [log_change_existing, if_true, List.length_append,
      List.length_cons, List.length_nil, Nat.zero_add]

/-- Witness for C1: the stored `bob` row differs in the first column. -/
theorem c1_updated_appends_and_reindexes_witness :
    wpDiff cfgW (RowSnap.mk 2 rowBob).data
        (wpRow cfgW stW [("NICK NAME", "bob"), ("PIC", "y")]) ≠ []
    ∧ ((write_profile cfgW stW [("NICK NAME", "bob"), ("PIC", "y")] true).result.status
        = "updated"
      ∧ (write_profile cfgW stW [("NICK NAME", "bob"), ("PIC", "y")] true).result.changed_fields
          = (wpDiff cfgW (RowSnap.mk 2 rowBob).data
              (wpRow cfgW stW [("NICK NAME", "bob"), ("PIC", "y")])).map
              (fun idx => cfgW.columnOrder.getD idx "")
      ∧ (∃ r, (write_profile cfgW stW [("NICK NAME", "bob"), ("PIC", "y")] true).st.profiles
          = stW.profiles ++ [r])
      ∧ (write_profile cfgW stW [("NICK NAME", "bob"), ("PIC", "y")] true).st.existing
          = dset stW.existing
              (pyLower (wpNickname [("NICK NAME", "bob"), ("PIC", "y")]))
              { row := stW.profiles.length + 1,
                data := wpRow cfgW stW [("NICK NAME", "bob"), ("PIC", "y")] }) :=
  ⟨by decide, c1_updated_appends_and_reindexes cfgW stW
    [("NICK NAME", "bob"), ("PIC", "y")] (RowSnap.mk 2 rowBob)
    (by decide) (by decide) (by decide) (by decide)⟩

/-- C3 counterexample: a record identical to its stored snapshot makes
`write_profile` return "unchanged", yet the call does perform a remote
write, namely the audit-log append issued through the executor by
`log_change` — so "performs no remote write" is false as stated. -/
theorem c3_unchanged_counterexample :
    (write_profile cfgW stW [("NICK NAME", "bob"), ("PIC", "x")] true).result.status
      = "unchanged"
    ∧ (write_profile cfgW stW [("NICK NAME", "bob"), ("PIC", "x")] true).writes ≠ [] := by
  constructor
  · decide
  · decide

/-- C3 as amended: a record whose projected values equal the stored
snapshot in every column (absent or empty cells compared as the empty
string) yields status "unchanged" with no changed fields, the Profiles
table and the Existing-Record Index are left unchanged, the only remote
write the call performs is the audit-log append, and no write at all is
performed when the log worksheet is absent. -/
theorem c3_unchanged_no_profile_write (cfg : Config) (st : SheetsState)
    (data : List (String × String)) (snap : RowSnap)
    (hnd : cfg.columnOrder.Nodup)
    (hnick : wpNickname data ≠ "")
    (hex : dget st.existing (pyLower (wpNickname data)) = some snap)
    (hsame : wpDiff cfg snap.data (wpRow cfg st data) = []) :
    (write_profile cfg st data true).result.status = "unchanged"
    ∧ (write_profile cfg st data true).result.changed_fields = []
    ∧ (write_profile cfg st data true).st.profiles = st.profiles
    ∧ (write_profile cfg st data true).st.existing = st.existing
    ∧ (∀ e ∈ (write_profile cfg st data true).writes,
        ∃ entry, e = WriteEvent.logAppend entry)
    ∧ (st.logPresent = false → (write_profile cfg st data true).writes = []) := by
  have hch0 : changedIndices cfg.columnOrder
      (buildBeforeSnap cfg.columnOrder snap.data) (wpRow cfg st data) = [] := by
    rw [changedIndices_eq_wpDiff cfg snap.data (wpRow cfg st data) hnd]
    exact hsame
  rw [write_profile_unchanged_eq cfg st data true snap hnick hex hch0]
  refine ⟨rfl, rfl, log_change_profiles .., log_change_existing .., ?_, ?_⟩
  · intro e he
    exact log_change_writes st (wpNickname data) "UNCHANGED" []
      (some (buildBeforeSnap cfg.columnOrder snap.data))
      (afterDict cfg.columnOrder (wpData st data)) e he
  · intro h
    simp [log_change, h]

/-- Witness for the amended C3 at a record matching its snapshot. -/
theorem c3_unchanged_no_profile_write_witness :
    wpDiff cfgW (RowSnap.mk 2 rowBob).data
        (wpRow cfgW stW [("NICK NAME", "bob"), ("PIC", "x")]) = []
    ∧ ((write_profile cfgW stW [("NICK NAME", "bob"), ("PIC", "x")] true).result.status
        = "unchanged"
      ∧ (write_profile cfgW stW [("NICK NAME", "bob"), ("PIC", "x")] true).result.changed_fields
          = []
      ∧ (write_profile cfgW stW [("NICK NAME", "bob"), ("PIC", "x")] true).st.profiles
          = stW.profiles
      ∧ (write_profile cfgW stW [("NICK NAME", "bob"), ("PIC", "x")] true).st.existing
          = stW.existing
      ∧ (∀ e ∈ (write_profile cfgW stW [("NICK NAME", "bob"), ("PIC", "x")] true).writes,
          ∃ entry, e = WriteEvent.logAppend entry)
      ∧ (stW.logPresent = false →
          (write_profile cfgW stW [("NICK NAME", "bob"), ("PIC", "x")] true).writes = [])) :=
  ⟨by decide, c3_unchanged_no_profile_write cfgW stW
    [("NICK NAME", "bob"), ("PIC", "x")] (RowSnap.mk 2 rowBob)
    (by decide) (by decide) (by decide) (by decide)⟩

/-- C4: the source ignores the value returned by
`safe_update(profiles_sheet.append_row, row_values)`.  When that append
fails (the executor exhausts its attempts and returns `None`), the call
does not return status "error": it proceeds as if the append had
happened, returns "new" (here, for an unseen identity), and records a
phantom entry in the Existing-Record Index — the entry points at the
current last row even though the projected values were never written.
This theorem evaluates the embedded code at such a failing input,
exhibiting the divergence from the specified behaviour. -/
theorem c4_failed_append_not_surfaced :
    (write_profile cfgW stEmptyW [("NICK NAME", "carol")] false).result.status = "new"
    ∧ (write_profile cfgW stEmptyW [("NICK NAME", "carol")] false).result.status ≠ "error"
    ∧ (write_profile cfgW stEmptyW [("NICK NAME", "carol")] false).st.profiles
        = stEmptyW.profiles
    ∧ (write_profile cfgW stEmptyW [("NICK NAME", "carol")] false).st.existing
        ≠ stEmptyW.existing
    ∧ (write_profile cfgW stEmptyW [("NICK NAME", "carol")] false).st.existing
        = [("carol", { row := 1, data := wpRow cfgW stEmptyW [("NICK NAME", "carol")] })] := by
  refine ⟨by decide, by decide, by decide, by decide, by decide⟩

/-- C5: running `write_profile` twice with the same record, starting
from an index that does not contain its identity, returns "new" on the
first call and "unchanged" on the second, the second call leaving both
the Profiles table and the index exactly as the first call left them. -/
theorem c5_second_run_unchanged (cfg : Config) (st : SheetsState)
    (data : List (String × String))
    (hnd : cfg.columnOrder.Nodup)
    (hnick : wpNickname data ≠ "")
    (hex : dget st.existing (pyLower (wpNickname data)) = none) :
    (write_profile cfg st data true).result.status = "new"
    ∧ (write_profile cfg (write_profile cfg st data true).st data true).result.status
        = "unchanged"
    ∧ (write_profile cfg (write_profile cfg st data true).st data true).st.profiles
        = (write_profile cfg st data true).st.profiles
    ∧ (write_profile cfg (write_profile cfg st data true).st data true).st.existing
        = (write_profile cfg st data true).st.existing := by
  have h1 := write_profile_new_eq cfg st data true hnick hex
  have htags : (write_profile cfg st data true).st.tags = st.tags := by
    rw [h1]; simp only [log_change_tags]
  have hexist : (write_profile cfg st data true).st.existing
      = dset st.existing (pyLower (wpNickname data))
          { row := st.profiles.length + 1, data := wpRow cfg st data } := by
    rw [h1]
    simp only [log_change_existing, if_true, List.length_append,
      List.length_cons, List.length_nil, Nat.zero_add]
  have hex2 : dget (write_profile cfg st data true).st.existing
      (pyLower (wpNickname data))
      = some { row := st.profiles.length + 1, data := wpRow cfg st data } := by
    rw [hexist]; exact dget_dset_self _ _ _
  have hrow2 : wpRow cfg (write_profile cfg st data true).st data
      = wpRow cfg st data := by
    unfold wpRow wpData
    rw [htags]
  have hch0 : changedIndices cfg.columnOrder
      (buildBeforeSnap cfg.columnOrder (wpRow cfg st data))
      (wpRow cfg (write_profile cfg st data true).st data) = [] := by
    rw [changedIndices_eq_wpDiff cfg (wpRow cfg st data)
      (wpRow cfg (write_profile cfg st data true).st data) hnd, hrow2]
    simp [wpDiff]
  have h2 := write_profile_unchanged_eq cfg (write_profile cfg st data true).st
    data true { row := st.profiles.length + 1, data := wpRow cfg st data }
    hnick hex2 hch0
  refine ⟨?_, ?_, ?_, ?_⟩
  · rw [h1]
  · rw [h2]
  · rw [h2]; simp only [log_change_profiles]
  · rw [h2]; simp only [log_change_existing]

/-- Witness for C5 at a previously unseen identity. -/
theorem c5_second_run_unchanged_witness :
    dget stEmptyW.existing (pyLower (wpNickname [("NICK NAME", "alice"), ("CITY", "lahore")])) = none
    ∧ ((write_profile cfgW stEmptyW [("NICK NAME", "alice"), ("CITY", "lahore")] true).result.status = "new"
      ∧ (write_profile cfgW
          (write_profile cfgW stEmptyW [("NICK NAME", "alice"), ("CITY", "lahore")] true).st
          [("NICK NAME", "alice"), ("CITY", "lahore")] true).result.status = "unchanged"
      ∧ (write_profile cfgW
          (write_profile cfgW stEmptyW [("NICK NAME", "alice"), ("CITY", "lahore")] true).st
          [("NICK NAME", "alice"), ("CITY", "lahore")] true).st.profiles
        = (write_profile cfgW stEmptyW [("NICK NAME", "alice"), ("CITY", "lahore")] true).st.profiles
      ∧ (write_profile cfgW
          (write_profile cfgW stEmptyW [("NICK NAME", "alice"), ("CITY", "lahore")] true).st
          [("NICK NAME", "alice"), ("CITY", "lahore")] true).st.existing
        = (write_profile cfgW stEmptyW [("NICK NAME", "alice"), ("CITY", "lahore")] true).st.existing) :=
  ⟨by decide, c5_second_run_unchanged cfgW stEmptyW
    [("NICK NAME", "alice"), ("CITY", "lahore")] (by decide) (by decide) (by decide)⟩

/-- C9 counterexample: `write_profile` does mutate the record passed to
it — the line `data["TAGS"] = self.get_tags_for_nickname(nickname)`
adds (or overwrites) the `TAGS` key, so a record without that key does
not hold the same entries after the call. -/
theorem c9_record_mutated_counterexample :
    (write_profile cfgW stEmptyW [("NICK NAME", "bob")] true).data
      ≠ [("NICK NAME", "bob")] := by
  decide

/-- C9 as amended: for a record that passes the nickname check, the
call mutates the record in exactly one entry, setting `TAGS` to the
resolved tag string; every other key keeps its value (and a record with
an empty trimmed nickname is not mutated at all). -/
theorem c9_record_mutated_only_tags (cfg : Config) (st : SheetsState)
    (data : List (String × String)) (appendOk : Bool)
    (hnick : wpNickname data ≠ "") :
    (write_profile cfg st data appendOk).data
      = dset data "TAGS" (get_tags_for_nickname st.tags (wpNickname data))
    ∧ (∀ c, c ≠ "TAGS" →
        dget (write_profile cfg st data appendOk).data c = dget data c) := by
  have hset : (write_profile cfg st data appendOk).data
      = dset data "TAGS" (get_tags_for_nickname st.tags (wpNickname data)) := by
    unfold write_profile
    have h1 : (pyStrip (dgetD data "NICK NAME" "") == "") = false := by
      simp only [wpNickname] at hnick
      exact beq_eq_false_iff_ne.mpr hnick
    simp only [h1, Bool.false_eq_true, if_false, wpNickname]
    split <;> split <;> rfl
  refine ⟨hset, ?_⟩
  intro c hc
  rw [hset]
  exact dget_dset_ne data c "TAGS" _ hc

/-- Witness for the amended C9. -/
theorem c9_record_mutated_only_tags_witness :
    wpNickname [("NICK NAME", "bob")] ≠ ""
    ∧ ((write_profile cfgW stW [("NICK NAME", "bob")] true).data
        = dset [("NICK NAME", "bob")] "TAGS"
            (get_tags_for_nickname stW.tags (wpNickname [("NICK NAME", "bob")]))
      ∧ (∀ c, c ≠ "TAGS" →
          dget (write_profile cfgW stW [("NICK NAME", "bob")] true).data c
            = dget [("NICK NAME", "bob")] c)) :=
  ⟨by decide, c9_record_mutated_only_tags cfgW stW [("NICK NAME", "bob")] true
    (by decide)⟩

/-- C10: change detection only compares the projected literal cells,
and the link-bearing columns project to fixed literals independent of
the stored URL, so two records that differ only in the URLs under
`IMAGE`, `PROFILE LINK` and `LAST POST` (with unchanged truthiness of
the two hyperlink fields, e.g. both URLs non-empty) have identical
projections; if the first matches the stored snapshot, both calls
return "unchanged" with no changed fields — a URL-only change in a
link-bearing field is never reported as a change. -/
theorem c10_url_only_change_is_unchanged (cfg : Config) (st : SheetsState)
    (data₁ data₂ : List (String × String)) (snap : RowSnap)
    (hnd : cfg.columnOrder.Nodup)
    (hag : ∀ c, c ≠ "IMAGE" → c ≠ "PROFILE LINK" → c ≠ "LAST POST" →
      dget data₁ c = dget data₂ c)
    (hpl : pyTruthy (dget data₁ "PROFILE LINK")
      = pyTruthy (dget data₂ "PROFILE LINK"))
    (hlp : pyTruthy (dget data₁ "LAST POST")
      = pyTruthy (dget data₂ "LAST POST"))
    (hnick : wpNickname data₁ ≠ "")
    (hex : dget st.existing (pyLower (wpNickname data₁)) = some snap)
    (hsame : wpDiff cfg snap.data (wpRow cfg st data₁) = []) :
    wpRow cfg st data₁ = wpRow cfg st data₂
    ∧ (write_profile cfg st data₁ true).result.status = "unchanged"
    ∧ (write_profile cfg st data₂ true).result.status = "unchanged"
    ∧ (write_profile cfg st data₂ true).result.changed_fields = [] := by
  have hnickEq : wpNickname data₂ = wpNickname data₁ := by
    unfold wpNickname dgetD
    rw [hag "NICK NAME" (by decide) (by decide) (by decide)]
  have hother2 : ∀ c, c ≠ "IMAGE" → c ≠ "PROFILE LINK" → c ≠ "LAST POST" →
      dget (wpData st data₁) c = dget (wpData st data₂) c := by
    intro c e1 e2 e3
    unfold wpData
    rw [hnickEq]
    by_cases hc : c = "TAGS"
    · subst hc
      rw [dget_dset_self, dget_dset_self]
    · rw [dget_dset_ne data₁ c "TAGS" _ hc, dget_dset_ne data₂ c "TAGS" _ hc,
        hag c e1 e2 e3]
  have hpl2 : pyTruthy (dget (wpData st data₁) "PROFILE LINK")
      = pyTruthy (dget (wpData st data₂) "PROFILE LINK") := by
    unfold wpData
    rw [hnickEq, dget_dset_ne data₁ "PROFILE LINK" "TAGS" _ (by decide),
      dget_dset_ne data₂ "PROFILE LINK" "TAGS" _ (by decide), hpl]
  have hlp2 : pyTruthy (dget (wpData st data₁) "LAST POST")
      = pyTruthy (dget (wpData st data₂) "LAST POST") := by
    unfold wpData
    rw [hnickEq, dget_dset_ne data₁ "LAST POST" "TAGS" _ (by decide),
      dget_dset_ne data₂ "LAST POST" "TAGS" _ (by decide), hlp]
  have hrow : wpRow cfg st data₁ = wpRow cfg st data₂ := by
    unfold wpRow projectRow
    exact List.map_congr_left fun c _ =>
      projectCell_congr cfg (wpData st data₁) (wpData st data₂)
        hother2 hpl2 hlp2 c
  have hnick₂ : wpNickname data₂ ≠ "" := by rw [hnickEq]; exact hnick
  have hex₂ : dget st.existing (pyLower (wpNickname data₂)) = some snap := by
    rw [hnickEq]; exact hex
  have hch₁ : changedIndices cfg.columnOrder
      (buildBeforeSnap cfg.columnOrder snap.data) (wpRow cfg st data₁) = [] := by
    rw [changedIndices_eq_wpDiff cfg snap.data (wpRow cfg st data₁) hnd]
    exact hsame
  have hch₂ : changedIndices cfg.columnOrder
      (buildBeforeSnap cfg.columnOrder snap.data) (wpRow cfg st data₂) = [] := by
    rw [← hrow]
    exact hch₁
  have h1 := write_profile_unchanged_eq cfg st data₁ true snap hnick hex hch₁
  have h2 := write_profile_unchanged_eq cfg st data₂ true snap hnick₂ hex₂ hch₂
  exact ⟨hrow, by rw [h1], by rw [h2], by rw [h2]⟩

/-- Witness for C10: two records that differ only in the profile URL. -/
theorem c10_url_only_change_is_unchanged_witness :
    wpDiff cfgW (RowSnap.mk 2 rowBobLink).data
        (wpRow cfgW stWLink
          [("NICK NAME", "bob"), ("PIC", "x"), ("PROFILE LINK", "http://a")]) = []
    ∧ (wpRow cfgW stWLink
          [("NICK NAME", "bob"), ("PIC", "x"), ("PROFILE LINK", "http://a")]
        = wpRow cfgW stWLink
          [("NICK NAME", "bob"), ("PIC", "x"), ("PROFILE LINK", "http://b")]
      ∧ (write_profile cfgW stWLink
          [("NICK NAME", "bob"), ("PIC", "x"), ("PROFILE LINK", "http://a")]
          true).result.status = "unchanged"
      ∧ (write_profile cfgW stWLink
          [("NICK NAME", "bob"), ("PIC", "x"), ("PROFILE LINK", "http://b")]
          true).result.status = "unchanged"
      ∧ (write_profile cfgW stWLink
          [("NICK NAME", "bob"), ("PIC", "x"), ("PROFILE LINK", "http://b")]
          true).result.changed_fields = []) :=
  ⟨by decide, c10_url_only_change_is_unchanged cfgW stWLink
    [("NICK NAME", "bob"), ("PIC", "x"), ("PROFILE LINK", "http://a")]
    [("NICK NAME", "bob"), ("PIC", "x"), ("PROFILE LINK", "http://b")]
    (RowSnap.mk 2 rowBobLink) (by decide)
    (by
      intro c e1 e2 e3
      have hb : ("PROFILE LINK" == c) = false :=
        beq_eq_false_iff_ne.mpr (Ne.symm e2)
      simp [dget, hb])
    (by decide) (by decide) (by decide) (by decide) (by decide)⟩

/-- C6: behaviour of the Retry/Backoff Executor.  An operation failing
with a quota signature (message containing "429" or "quota") twice and
then succeeding returns the success result after exactly two backoff
sleeps of `(attempt_index + 1) * 5` seconds; an operation always
failing with a quota signature returns failure (`none`, never an
exception) after the fixed maximum of 3 attempts; a non-quota failure
is retried (without a backoff sleep) while attempts remain, and when
the failure persists through the last attempt the executor returns
failure. -/
theorem c6_safe_update_retry_behaviour :
    (∀ (α : Type) (op : Nat → AttemptOutcome α) (m₀ m₁ : String) (r : α),
      op 0 = AttemptOutcome.failure m₀ → isQuotaError m₀ = true →
      op 1 = AttemptOutcome.failure m₁ → isQuotaError m₁ = true →
      op 2 = AttemptOutcome.success r →
      safe_update op 3 = (some r, [(0 + 1) * 5, (1 + 1) * 5]))
    ∧ (∀ (α : Type) (op : Nat → AttemptOutcome α),
      (∀ i, i < 3 → ∃ m, op i = AttemptOutcome.failure m ∧ isQuotaError m = true) →
      safe_update op 3 = (none, [(0 + 1) * 5, (1 + 1) * 5, (2 + 1) * 5]))
    ∧ (∀ (α : Type) (op : Nat → AttemptOutcome α) (m : String) (r : α),
      op 0 = AttemptOutcome.failure m → isQuotaError m = false →
      op 1 = AttemptOutcome.success r →
      safe_update op 3 = (some r, []))
    ∧ (∀ (α : Type) (op : Nat → AttemptOutcome α) (m₀ m₁ m₂ : String),
      op 0 = AttemptOutcome.failure m₀ → isQuotaError m₀ = false →
      op 1 = AttemptOutcome.failure m₁ → isQuotaError m₁ = false →
      op 2 = AttemptOutcome.failure m₂ → isQuotaError m₂ = false →
      safe_update op 3 = (none, [])) := by
  refine ⟨?_, ?_, ?_, ?_⟩
  · intro α op m₀ m₁ r h0 hq0 h1 hq1 h2
    simp [safe_update, safeUpdateGo, h0, h1, h2, hq0, hq1]
  · intro α op h
    obtain ⟨m₀, h0, hq0⟩ := h 0 (by decide)
    obtain ⟨m₁, h1, hq1⟩ := h 1 (by decide)
    obtain ⟨m₂, h2, hq2⟩ := h 2 (by decide)
    simp [safe_update, safeUpdateGo, h0, h1, h2, hq0, hq1, hq2]
  · intro α op m r h0 hq0 h1
    simp [safe_update, safeUpdateGo, h0, h1, hq0]
  · intro α op m₀ m₁ m₂ h0 hq0 h1 hq1 h2 hq2
    simp [safe_update, safeUpdateGo, h0, h1, h2, hq0, hq1, hq2]

/-- Witness for C6: an operation that always raises a quota error is
given up on after the three attempts, with the three backoff sleeps. -/
theorem c6_safe_update_retry_behaviour_witness :
    safe_update (fun _ => (AttemptOutcome.failure "Quota exceeded" : AttemptOutcome String)) 3
      = (none, [(0 + 1) * 5, (1 + 1) * 5, (2 + 1) * 5]) :=
  c6_safe_update_retry_behaviour.2.1 String
    (fun _ => AttemptOutcome.failure "Quota exceeded")
    (fun _ _ => ⟨"Quota exceeded", rfl, by decide⟩)

/-! ## Tag resolver characterisation -/

theorem dget_addTag_self (m : List (String × String)) (k t : String) :
    dget (addTag m k t) k
      = some (match dget m k with
          | none => t
          | some v => v ++ ", " ++ t) := by
  unfold addTag
  cases h : dget m k <;> simp [h, dget_dset_self]

theorem dget_addTag_ne (m : List (String × String)) (k t k₂ : String)
    (h : k₂ ≠ k) : dget (addTag m k t) k₂ = dget m k₂ := by
  unfold addTag
  cases hm : dget m k <;> simp [dget_dset_ne _ _ _ _ h]

theorem joinAcc_append (ts us : List String) :
    ∀ o, joinAcc o (ts ++ us) = joinAcc (joinAcc o ts) us := by
  induction ts with
  | nil => intro o; rfl
  | cons t ts ih => intro o; simp [joinAcc, ih]

theorem joinAcc_some (ts : List String) :
    ∀ v, joinAcc (some v) ts
      = some (ts.foldl (fun a b => a ++ ", " ++ b) v) := by
  induction ts with
  | nil => intro v; rfl
  | cons t ts ih => intro v; simp [joinAcc, ih]

theorem getD_joinAcc_none (ts : List String) :
    (joinAcc none ts).getD "" = joinComma ts := by
  cases ts with
  | nil => rfl
  | cons t ts => simp [joinAcc, joinComma, joinAcc_some]

theorem dget_processColumn (ci : Nat) (t k : String) :
    ∀ (rows : List (List String)) (m : List (String × String)),
      dget (processColumn ci t rows m) k
        = joinAcc (dget m k) (List.replicate (matchCount ci k rows) t) := by
  intro rows
  induction rows with
  | nil => intro m; rfl
  | cons row rest ih =>
    intro m
    by_cases h1 : ci < row.length
    · by_cases h2 : (pyStrip (row.getD ci "") == "") = true
      · have hrm : rowMatch ci k row = false := by
          unfold rowMatch
          rw [h2]
          simp
        simp only [processColumn, matchCount, if_pos h1, if_pos h2, hrm,
          if_false, Bool.false_eq_true, Nat.zero_add]
        exact ih m
      · by_cases h3 : (pyLower (pyStrip (row.getD ci "")) == k) = true
        · have hk := eq_of_beq h3
          have h2f : (pyStrip (row.getD ci "") == "") = false :=
            Bool.eq_false_iff.mpr h2
          have hrm : rowMatch ci k row = true := by
            unfold rowMatch
            rw [h2f, h3]
            simp [h1]
          simp only [processColumn, matchCount, if_pos h1, if_neg h2, hrm,
            if_true]
          rw [ih (addTag m (pyLower (pyStrip (row.getD ci ""))) t), hk,
            dget_addTag_self, Nat.add_comm 1 (matchCount ci k rest),
            List.replicate_succ]
          simp [joinAcc]
        · have hk : k ≠ pyLower (pyStrip (row.getD ci "")) := by
            intro he
            exact h3 (by simp [he])
          have h3f : (pyLower (pyStrip (row.getD ci "")) == k) = false :=
            Bool.eq_false_iff.mpr h3
          have hrm : rowMatch ci k row = false := by
            unfold rowMatch
            rw [h3f]
            simp
          simp only [processColumn, matchCount, if_pos h1, if_neg h2, hrm,
            if_false, Bool.false_eq_true, Nat.zero_add]
          rw [ih (addTag m (pyLower (pyStrip (row.getD ci ""))) t),
            dget_addTag_ne _ _ _ _ hk]
    · have hrm : rowMatch ci k row = false := by
        simp [rowMatch, h1]
      simp only [processColumn, matchCount, if_neg h1, hrm, if_false,
        Bool.false_eq_true, Nat.zero_add]
      exact ih m

theorem dget_loadTagsAux (rows : List (List String)) (k : String) :
    ∀ (cols : List (Nat × String)) (m : List (String × String)),
      dget (loadTagsAux rows cols m) k
        = joinAcc (dget m k)
            (cols.flatMap (fun p =>
              if pyStrip p.2 == "" then []
              else List.replicate (matchCount p.1 k rows) (pyStrip p.2))) := by
  intro cols
  induction cols with
  | nil => intro m; rfl
  | cons p rest ih =>
    intro m
    obtain ⟨ci, tag⟩ := p
    by_cases h : (pyStrip tag == "") = true
    · simp only [loadTagsAux, if_pos h, List.flatMap_cons, List.nil_append]
      exact ih m
    · simp only [loadTagsAux, if_neg h, List.flatMap_cons]
      rw [ih (processColumn ci (pyStrip tag) rows m), joinAcc_append,
        dget_processColumn]

/-- C8 counterexample: an identity listed twice under the same tag
column gets that tag appended once per appearance, so the resolved
string is not "the comma-joined list of every tag column it appears
under" — for `bob` under the single column `VIP` (twice) the code
yields "VIP, VIP", not "VIP". -/
theorem c8_tags_counterexample :
    get_tags_for_nickname
        (load_tags_mapping (some [["VIP"], ["bob"], ["bob"]])) "bob" = "VIP, VIP"
    ∧ get_tags_for_nickname
        (load_tags_mapping (some [["VIP"], ["bob"], ["bob"]])) "bob" ≠ "VIP" := by
  constructor
  · decide
  · decide

/-- C8 as amended: the built mapping sends a lower-cased identity to
the comma-joined list of tag occurrences, one entry per non-empty cell
whose trimmed lower-cased text equals the identity (an identity listed
several times under one column repeats that tag), grouped by column
left to right; a missing table or one with fewer than 2 rows yields the
empty mapping; lookup lower-cases its argument (so it is
case-insensitive) and an absent identity yields the empty string. -/
theorem c8_tags_resolver_characterised :
    load_tags_mapping none = []
    ∧ (∀ d, d.length < 2 → load_tags_mapping (some d) = [])
    ∧ (∀ (headers : List String) (rows : List (List String)) (nick : String),
        get_tags_for_nickname (load_tags_mapping (some (headers :: rows))) nick
          = joinComma (occTags headers rows (pyLower nick)))
    ∧ (∀ m n₁ n₂, pyLower n₁ = pyLower n₂ →
        get_tags_for_nickname m n₁ = get_tags_for_nickname m n₂)
    ∧ (∀ m n, dget m (pyLower n) = none → get_tags_for_nickname m n = "") := by
  refine ⟨rfl, ?_, ?_, ?_, ?_⟩
  · intro d hd
    match d with
    | [] => rfl
    | h :: t =>
      simp only [load_tags_mapping, if_pos hd]
  · intro headers rows nick
    match rows with
    | [] =>
      have hfm : (headers.enum.flatMap fun _ => ([] : List String)) = [] := by
        simp
      simp [load_tags_mapping, get_tags_for_nickname, dgetD, dget, occTags,
        matchCount, joinComma, hfm]
    | row :: rest =>
      have hlen : ¬((headers :: row :: rest).length < 2) := by
        simp [List.length_cons]
      simp only [load_tags_mapping, if_neg hlen]
      unfold get_tags_for_nickname dgetD
      rw [dget_loadTagsAux (row :: rest) (pyLower nick) headers.enum []]
      simp only [dget]
      rw [getD_joinAcc_none]
      rfl
  · intro m n₁ n₂ h
    unfold get_tags_for_nickname
    rw [h]
  · intro m n h
    unfold get_tags_for_nickname dgetD
    rw [h]
    rfl

/-- Witness for C8: a one-row table is below the 2-row minimum and
yields the empty mapping; a two-column table tags `bob` (looked up
case-insensitively as "BOB") with both columns in column order. -/
theorem c8_tags_resolver_characterised_witness :
    [["VIP"]].length < 2
    ∧ load_tags_mapping (some [["VIP"]]) = []
    ∧ get_tags_for_nickname
        (load_tags_mapping (some [["VIP", "Flagged"], ["bob", "bob"]])) "BOB"
      = joinComma (occTags ["VIP", "Flagged"] [["bob", "bob"]] (pyLower "BOB"))
    ∧ get_tags_for_nickname
        (load_tags_mapping (some [["VIP", "Flagged"], ["bob", "bob"]])) "BOB"
      = "VIP, Flagged" :=
  ⟨by decide, c8_tags_resolver_characterised.2.1 [["VIP"]] (by decide),
    c8_tags_resolver_characterised.2.2.1 ["VIP", "Flagged"] [["bob", "bob"]] "BOB",
    by decide⟩

end DD
